import Mathlib

/-!
Verification of the livestream acquisition pipeline of the dyvine repository.

The definitions below are a shallow embedding of
src/dyvine/services/livestreams.py (class LivestreamService).  Python strings
are Lean Strings, Python dicts of strings are insertion-ordered association
lists, upstream network calls are fields of an explicit environment record
(Env) returning Except values (an .error models a raised exception), and the
mutable service state (the download_jobs registry plus the set of background
tasks ever created) is threaded explicitly.  Python truthiness on strings is
the emptiness test, and str.isdigit is the nonempty-all-digits test (ASCII).
-/

namespace Dyvine

/-- Python truthiness of a string: falsy exactly when empty. -/
def strFalsy (s : String) : Bool := s == ""

/-- Python str.isdigit: nonempty and all characters are digits. -/
def pyIsDigit (s : String) : Bool := !(s == "") && s.data.all Char.isDigit

/-- Python whitespace characters stripped by str.strip(). -/
def isPyWhitespace (c : Char) : Bool :=
  c == ' ' || c == '\t' || c == '\n' || c == '\r' || c == '\x0b' || c == '\x0c'

/-- Python str.strip(): drop leading and trailing whitespace. -/
def pyStrip (s : String) : String :=
  String.mk (((s.data.dropWhile isPyWhitespace).reverse.dropWhile isPyWhitespace).reverse)

/-- Whether the character list starts with the given pattern. -/
def listStartsWith : List Char → List Char → Bool
  | _, [] => true
  | [], _ :: _ => false
  | a :: as, b :: bs => a == b && listStartsWith as bs

/-- Whether the pattern occurs as a contiguous sublist. -/
def listContains (pat : List Char) : List Char → Bool
  | [] => listStartsWith [] pat
  | c :: rest => listStartsWith (c :: rest) pat || listContains pat rest

/-- Python substring containment: pat in s. -/
def pyContains (s pat : String) : Bool := listContains pat.data s.data

/-- Python str.startswith. -/
def pyStartsWith (s pre : String) : Bool := listStartsWith s.data pre.data

/-- Python str.lower, character by character. -/
def pyLower (s : String) : String := String.mk (s.data.map Char.toLower)

/-- Python str.split(sep) for a single-character separator. -/
def splitOnChar (sep : Char) : List Char → List (List Char)
  | [] => [[]]
  | c :: rest =>
    let r := splitOnChar sep rest
    if c == sep then [] :: r
    else
      match r with
      | [] => [[c]]
      | h :: t => (c :: h) :: t

/-- Python str.rstrip(ch): drop all trailing occurrences of ch. -/
def rstripChar (ch : Char) (s : List Char) : List Char :=
  (s.reverse.dropWhile (fun c => c == ch)).reverse

/-- Prefix of the list before the first occurrence of ch (Python split(ch)[0]). -/
def takeUntilChar (ch : Char) : List Char → List Char
  | [] => []
  | c :: rest => if c == ch then [] else c :: takeUntilChar ch rest

/-- Python s.split(chr(63))[0].split(chr(35))[0]: strip query and fragment. -/
def stripQF (s : String) : String :=
  String.mk (takeUntilChar '#' (takeUntilChar '?' s.data))

/-- Characters following the first scheme separator (colon slash slash), if any. -/
def findSchemeSep : List Char → Option (List Char)
  | [] => none
  | ':' :: '/' :: '/' :: rest => some rest
  | _ :: rest => findSchemeSep rest

/-- Split a post-scheme suffix into the network location and the remainder. -/
def splitNetloc : List Char → List Char × List Char
  | [] => ([], [])
  | c :: rest =>
    if c == '/' || c == '?' || c == '#' then ([], c :: rest)
    else
      let p := splitNetloc rest
      (c :: p.1, p.2)

/-- Result of urllib.parse.urlparse restricted to the fields the service reads. -/
structure ParsedUrl where
  netloc : String
  path : String
deriving DecidableEq, Repr

/-- Embedding of urllib.parse.urlparse for the netloc and path components:
the netloc follows the scheme separator up to a slash, question mark or hash,
and the path extends to the query or fragment.  The service only ever parses
strings containing a scheme separator (it prepends one otherwise). -/
def pyUrlparse (s : String) : ParsedUrl :=
  match findSchemeSep s.data with
  | some rest =>
    let p := splitNetloc rest
    { netloc := String.mk p.1, path := String.mk (takeUntilChar '#' (takeUntilChar '?' p.2)) }
  | none =>
    { netloc := "", path := String.mk (takeUntilChar '#' (takeUntilChar '?' s.data)) }

/-- Association list with string keys and values, modelling a Python dict of
strings in insertion order. -/
abbrev StrMap := List (String × String)

/-- Python dict.get(key): first value bound to the key, if any. -/
def getVal : StrMap → String → Option String
  | [], _ => none
  | (k, v) :: rest, key => if k == key then some v else getVal rest key

/-- Registry of background jobs: room id keys mapped to task handles. -/
abbrev JobMap := List (String × Nat)

/-- Python key in dict test. -/
def hasKey (m : JobMap) (k : String) : Bool := m.any (fun p => p.1 == k)

/-- Python dict assignment: replace the value of an existing key, else append. -/
def setKey (m : JobMap) (k : String) (v : Nat) : JobMap :=
  if hasKey m k then m.map (fun p => if p.1 == k then (k, v) else p) else m ++ [(k, v)]

/-- Python dict.pop(key, None): remove all bindings of the key. -/
def popJob (m : JobMap) (k : String) : JobMap := m.filter (fun p => p.1 != k)

/-- The fields of an f2 live filter object that download_stream reads: the
status and room_id keys of its _to_dict() payload (absent keys are none) and
the m3u8_pull_url and flv_pull_url attributes. -/
structure LiveFilter where
  toDictStatus : Option Int
  toDictRoomId : Option String
  m3u8PullUrl : StrMap
  flvPullUrl : StrMap
deriving DecidableEq, Repr

/-- Decoded content of a profile room_data JSON payload.  The JSON walking of
_stream_map_from_room_data (livestreams.py lines 133 to 193) is embedded at the
level of its decoded result: the HLS stream map, the optional top-level status
field, and the FLV map; a missing or undecodable payload is the none case of
Option RoomData. -/
structure RoomData where
  streamMap : StrMap
  status : Option Int
  flvMap : StrMap
deriving DecidableEq, Repr

/-- Embedding of _stream_map_from_room_data: missing or invalid payloads give
the empty maps and no status. -/
def streamMapFromRoomData : Option RoomData → StrMap × Option Int × StrMap
  | none => ([], none, [])
  | some rd => (rd.streamMap, rd.status, rd.flvMap)

/-- The fields of a user profile that download_stream reads: is_living,
str(room_id) with the empty string modelling a falsy room id, and room_data. -/
structure Profile where
  isLiving : Bool
  roomId : String
  roomData : Option RoomData
deriving DecidableEq, Repr

/-- The profile_room_info dict built in download_stream lines 329 to 337. -/
structure ProfileRoomInfo where
  status : Int
  streamMap : StrMap
  flvPullUrl : StrMap
  roomId : String
  webcastId : String
deriving DecidableEq, Repr

/-- Environment of upstream capabilities consumed by the service: an .error
result models the call raising an exception.  getWebcastId covers both uses of
WebCastIdFetcher.get_webcast_id (keyed by the URL argument), getUserInfo is
UserService.get_user_info, fetchUserLiveVideos and fetchByRoomId are the two
douyin_handler lookups (returning none models a falsy filter), and mkdir is
Path.mkdir (some message models a raised OSError). -/
structure Env where
  getWebcastId : String → Except String String
  getUserInfo : String → Except String Profile
  fetchUserLiveVideos : String → Except String (Option LiveFilter)
  fetchByRoomId : String → Except String (Option LiveFilter)
  mkdir : String → Option String

/-- Mutable service state: the download_jobs registry plus the trace of
background tasks ever created (room id passed to _run_stream_download and task
handle), with a counter supplying fresh task handles. -/
structure ServiceState where
  downloadJobs : JobMap
  tasksCreated : List (String × Nat)
  nextTaskId : Nat
deriving DecidableEq, Repr

/-- Outcome of the identifier-resolution phase of download_stream (lines 268
to 345): either a synchronous error return, or a nonempty webcast id together
with the profile_room_info dict when the profile path produced one. -/
inductive Resolution where
  | failure (msg : String)
  | resolved (webcastId : String) (profileRoomInfo : Option ProfileRoomInfo)
deriving DecidableEq, Repr

/-- The parsed URL observed by download_stream: the input is stripped and a
scheme is prepended when absent (line 279 to 283). -/
def parsedOf (url : String) : ParsedUrl :=
  pyUrlparse (if pyContains (pyStrip url) "://" then pyStrip url
              else "https://" ++ pyStrip url)

/-- The lowercased host of the parsed URL (line 285). -/
def hostOf (url : String) : String := pyLower (parsedOf url).netloc

/-- Last path segment before query or fragment stripping is applied
(the inner expression of line 286). -/
def rawLastSegment (path : String) : String :=
  if path == "" then ""
  else String.mk ((splitOnChar '/' (rstripChar '/' path.data)).getLastD [])

/-- The last_segment variable of download_stream (lines 286 to 287). -/
def lastSegmentOf (url : String) : String := stripQF (rawLastSegment (parsedOf url).path)

/-- The user_id expression of line 308: last_segment, or the raw last path
segment when last_segment is empty. -/
def userIdOf (url : String) : String :=
  if lastSegmentOf url == "" then rawLastSegment (parsedOf url).path else lastSegmentOf url

/-- Embedding of the profile branch of download_stream (lines 306 to 342),
entered with the candidate user id: fetch the profile, reject a user who is
not currently living or has a falsy room id, and otherwise build the
profile_room_info dict, defaulting a missing status to 2 exactly when the
decoded stream map is nonempty (lines 330 to 331). -/
def profileLookup (env : Env) (userId : String) : Resolution :=
  if userId == "" then .failure "User identifier missing in profile URL"
  else
    match env.getUserInfo userId with
    | .error e => .failure ("Failed to resolve webcast id from profile: " ++ e)
    | .ok profile =>
      if !profile.isLiving || strFalsy profile.roomId then
        .failure "User is not currently livestreaming"
      else
        let decoded := streamMapFromRoomData profile.roomData
        let streamMap := decoded.1
        let statusField := decoded.2.1
        let flvMap := decoded.2.2
        .resolved profile.roomId (some {
          status := match statusField with
            | some s => s
            | none => if streamMap == [] then 0 else 2,
          streamMap := streamMap,
          flvPullUrl := flvMap,
          roomId := profile.roomId,
          webcastId := profile.roomId })

/-- Embedding of the identifier-resolution phase of download_stream (lines 268
to 345), in source order: reject the empty input; an all-digits input is the
webcast id directly; else an all-digits last URL path segment; else one call to
the external webcast-id resolution service with exceptions swallowed; else the
profile branch when the host and path match; finally reject a falsy id. -/
def resolveWebcastId (env : Env) (url : String) : Resolution :=
  let normalizedUrl := pyStrip url
  if normalizedUrl == "" then .failure "Livestream URL is required"
  else
    let wc0 : Option String := if pyIsDigit normalizedUrl then some normalizedUrl else none
    let path := (parsedOf url).path
    let host := hostOf url
    let lastSegment := lastSegmentOf url
    let wc1 : Option String :=
      match wc0 with
      | some w => some w
      | none => if pyIsDigit lastSegment then some lastSegment else none
    let wc2 : Option String :=
      match wc1 with
      | some w => some w
      | none =>
        match env.getWebcastId normalizedUrl with
        | .ok w => some w
        | .error _ => none
    if (match wc2 with | none => true | some w => strFalsy w)
        && pyContains host "douyin.com" && pyStartsWith path "/user/" then
      profileLookup env (userIdOf url)
    else
      match wc2 with
      | some w =>
        if strFalsy w then .failure "Unable to resolve webcast id from provided URL"
        else .resolved w none
      | none => .failure "Unable to resolve webcast id from provided URL"

/-- Embedding of LivestreamService._load_live_filter (lines 59 to 105): the
primary direct webcast-id lookup, then the WebCastIdFetcher conversion followed
by a lookup of the converted id, then the room-id lookup whose result is
returned as is; all exceptions along the way fall through to the next source,
and an exception in the last source yields None.  The only raised error is the
ValueError for an empty webcast id (line 66). -/
def loadLiveFilter (env : Env) (webcastId : String) : Except String (Option LiveFilter) :=
  if webcastId == "" then .error "webcast_id is required to resolve livestream metadata"
  else
    match env.fetchUserLiveVideos webcastId with
    | .ok (some lf) => .ok (some lf)
    | _ =>
      let conv : Option LiveFilter :=
        match env.getWebcastId ("https://live.douyin.com/" ++ webcastId) with
        | .error _ => none
        | .ok convertedId =>
          if !(strFalsy convertedId) && convertedId != webcastId then
            match env.fetchUserLiveVideos convertedId with
            | .ok (some lf) => some lf
            | _ => none
          else none
      match conv with
      | some lf => .ok (some lf)
      | none =>
        match env.fetchByRoomId webcastId with
        | .ok r => .ok r
        | .error _ => .ok none

/-- The room_info dict of line 354: the filter payload when a filter was
loaded, else the profile_room_info dict, else the empty dict. -/
inductive RoomInfoD where
  | fromFilter (lf : LiveFilter)
  | fromProfile (pri : ProfileRoomInfo)
  | empty
deriving DecidableEq, Repr

/-- room_info.get of the status key. -/
def RoomInfoD.status : RoomInfoD → Option Int
  | .fromFilter lf => lf.toDictStatus
  | .fromProfile p => some p.status
  | .empty => none

/-- room_info.get of the room_id key (none when the key is absent). -/
def RoomInfoD.roomIdGet : RoomInfoD → Option String
  | .fromFilter lf => lf.toDictRoomId
  | .fromProfile p => some p.roomId
  | .empty => none

/-- Which room_info dict line 354 selects. -/
def roomInfoFrom : Option LiveFilter → Option ProfileRoomInfo → RoomInfoD
  | some lf, _ => .fromFilter lf
  | none, some p => .fromProfile p
  | none, none => .empty

/-- Line 357: str(room_info.get(room_id key, webcast_id) or webcast_id). -/
def roomIdFrom (ri : RoomInfoD) (wcId : String) : String :=
  match ri.roomIdGet with
  | none => wcId
  | some r => if strFalsy r then wcId else r

/-- Lines 365 to 374 restricted to the HLS map: the profile stream map when
present and nonempty, else the filter m3u8_pull_url attribute when a filter
was loaded. -/
def effectiveStreamMap (pri : Option ProfileRoomInfo) (lf? : Option LiveFilter) : StrMap :=
  let m : StrMap :=
    match pri with
    | some p => if p.streamMap == [] then [] else p.streamMap
    | none => []
  if m == [] then
    match lf? with
    | some lf => lf.m3u8PullUrl
    | none => []
  else m

/-- dict.get bundled with the truthiness test of line 126: the value bound to
the key when it is a nonempty string. -/
def populatedVal (m : StrMap) (key : String) : Option String :=
  match getVal m key with
  | some v => if v == "" then none else some v
  | none => none

/-- The fixed preference order of _select_stream_url (line 123). -/
def preferredOrder : List String := ["FULL_HD1", "HD1", "SD1", "SD2"]

/-- First populated value among the given keys (the loop of lines 124 to 127). -/
def selectFromPreferred (m : StrMap) : List String → Option String
  | [] => none
  | k :: ks =>
    match populatedVal m k with
    | some v => some v
    | none => selectFromPreferred m ks

/-- First nonempty value of the map in insertion order (lines 128 to 130). -/
def firstNonEmptyValue : StrMap → Option String
  | [] => none
  | (_, v) :: rest => if v == "" then firstNonEmptyValue rest else some v

/-- Embedding of LivestreamService._select_stream_url (lines 120 to 131). -/
def selectStreamUrl (m : StrMap) : Option String :=
  match selectFromPreferred m preferredOrder with
  | some v => some v
  | none => firstNonEmptyValue m

/-- Python repr of the status code interpolated into the not-streaming
message: None for a missing key, otherwise the integer. -/
def pyStr : Option Int → String
  | none => "None"
  | some n => toString n

/-- The synchronous not-streaming error message of lines 361 to 363. -/
def notStreamingMsg (status : Option Int) : String :=
  "User is not currently streaming (status code: " ++ pyStr status ++ ")"

/-- The target file path of line 413. -/
def targetFilePath (outputDir roomId : String) : String :=
  outputDir ++ "/" ++ roomId ++ "_live.flv"

/-- The output directory of lines 382 to 385: the caller-supplied path, else
the default livestreams directory. -/
def outputDirOf : Option String → String
  | some p => p
  | none => "data/douyin/downloads/livestreams"

/-- Body of download_stream (lines 267 to 421) after factoring the resolution
phase: an .error result models an exception escaping the body into the
enclosing try (only the mkdir call and the unreachable empty-webcast-id
ValueError can do so), and an .ok result carries the returned pair together
with the updated service state.  The webcast_payload dict of lines 388 to 399
feeds only the background task and is abstracted to the room id recorded with
the created task. -/
def downloadStreamAux (env : Env) (url : String) (outputPath : Option String)
    (st : ServiceState) : Except String ((String × String) × ServiceState) :=
  match resolveWebcastId env url with
  | .failure msg => .ok (("error", msg), st)
  | .resolved wcId pri =>
    if hasKey st.downloadJobs wcId then
      .ok (("error", "Already downloading this stream"), st)
    else
      match loadLiveFilter env wcId with
      | .error e => .error e
      | .ok lf? =>
        if lf?.isNone && pri.isNone then
          .ok (("error", "Unable to fetch livestream metadata"), st)
        else if (roomInfoFrom lf? pri).status ≠ some 2 then
          .ok (("error", notStreamingMsg (roomInfoFrom lf? pri).status), st)
        else if effectiveStreamMap pri lf? == [] then
          .ok (("error", "No live stream available for this user"), st)
        else if (selectStreamUrl (effectiveStreamMap pri lf?)).isNone then
          .ok (("error", "No suitable quality stream found"), st)
        else
          match env.mkdir (outputDirOf outputPath) with
          | some e => .error e
          | none =>
            .ok (("pending",
                  targetFilePath (outputDirOf outputPath)
                    (roomIdFrom (roomInfoFrom lf? pri) wcId)),
              { downloadJobs :=
                  setKey st.downloadJobs (roomIdFrom (roomInfoFrom lf? pri) wcId)
                    st.nextTaskId,
                tasksCreated :=
                  st.tasksCreated ++ [(roomIdFrom (roomInfoFrom lf? pri) wcId, st.nextTaskId)],
                nextTaskId := st.nextTaskId + 1 })

/-- Embedding of LivestreamService.download_stream: the enclosing try of lines
267 and 423 to 425 converts any escaping exception into an error pair, leaving
the state as it was (no state mutation precedes a raising call). -/
def downloadStream (env : Env) (url : String) (outputPath : Option String)
    (st : ServiceState) : (String × String) × ServiceState :=
  match downloadStreamAux env url outputPath st with
  | .ok r => r
  | .error e => (("error", e), st)

/-- Embedding of LivestreamService._run_stream_download (lines 427 to 446):
the downloader outcome (ok or a raised exception) is only logged, and the
finally block pops the job id from the registry in either case. -/
def runStreamDownload (downloadOutcome : Except String Unit) (st : ServiceState)
    (jobId : String) : ServiceState :=
  match downloadOutcome with
  | .ok _ => { st with downloadJobs := popJob st.downloadJobs jobId }
  | .error _ => { st with downloadJobs := popJob st.downloadJobs jobId }

/-- The output artifact path checked by get_download_status (lines 458 to 459). -/
def outputFileFor (operationId : String) : String :=
  "data/douyin/downloads/livestreams/" ++ operationId ++ "_live.flv"

/-- Embedding of LivestreamService.get_download_status (lines 448 to 467),
with the filesystem existence test passed in as a predicate: the artifact path
when the file exists, else an in-progress message when the id is registered,
else a raised not-found error. -/
def getDownloadStatus (fsExists : String → Bool) (st : ServiceState)
    (operationId : String) : Except String String :=
  if fsExists (outputFileFor operationId) then .ok (outputFileFor operationId)
  else if hasKey st.downloadJobs operationId then .ok "Download in progress."
  else .error "Operation not found or status unknown."

/-! ### Segment merger, modelled from the spec -/

/-- Modelled from the spec: the repository contains no Segment Merger
implementation (recording and merging are delegated to the external f2
downloader), so the Segment data of spec section 3 is modelled from the
spec's words: a monotone sequence index, the file content as bytes, and the
filesystem modification time. -/
structure Segment where
  index : Nat
  content : List Nat
  mtime : Nat
deriving DecidableEq, Repr

/-- Ordering of segments by their embedded sequence index. -/
def segLE (a b : Segment) : Prop := a.index ≤ b.index

instance : DecidableRel segLE := fun a b => inferInstanceAs (Decidable (a.index ≤ b.index))

instance : IsTotal Segment segLE := ⟨fun a b => Nat.le_total a.index b.index⟩

instance : IsTrans Segment segLE := ⟨fun _ _ _ => Nat.le_trans⟩

/-- Modelled from the spec: the Segment Merger orders segments by their
embedded sequence index, never by filesystem modification time (spec
section 4.6). -/
def sortSegments (segs : List Segment) : List Segment := List.insertionSort segLE segs

/-- Modelled from the spec: a concatenation manifest is built in index order
and the segment contents are concatenated into one output. -/
def mergeSegments (segs : List Segment) : List Nat :=
  (sortSegments segs).foldr (fun s acc => s.content ++ acc) []

/-! ### Concrete fixtures used by witnesses and counterexamples -/

/-- Initial service state: empty registry, no tasks ever created. -/
def st0 : ServiceState := { downloadJobs := [], tasksCreated := [], nextTaskId := 0 }

/-- Environment in which every upstream call fails and mkdir succeeds. -/
def envA : Env :=
  { getWebcastId := fun _ => .error "service unavailable",
    getUserInfo := fun _ => .error "service unavailable",
    fetchUserLiveVideos := fun _ => .error "service unavailable",
    fetchByRoomId := fun _ => .error "service unavailable",
    mkdir := fun _ => none }

/-- Service state in which webcast id 42 is registered as a job key. -/
def stW : ServiceState :=
  { downloadJobs := [("42", 0)], tasksCreated := [("42", 0)], nextTaskId := 1 }

/-- A live filter whose payload carries room id 999, different from the
webcast id 555 that resolves to it, and a live status. -/
def lfC1 : LiveFilter :=
  { toDictStatus := some 2, toDictRoomId := some "999",
    m3u8PullUrl := [("FULL_HD1", "u")], flvPullUrl := [] }

/-- Environment in which webcast id 555 resolves to the live room 999. -/
def envC1 : Env :=
  { getWebcastId := fun _ => .error "service unavailable",
    getUserInfo := fun _ => .error "service unavailable",
    fetchUserLiveVideos := fun s => if s == "555" then .ok (some lfC1) else .error "not found",
    fetchByRoomId := fun _ => .error "not found",
    mkdir := fun _ => none }

/-- A live filter whose payload carries a non-live status code 0. -/
def lfC2 : LiveFilter :=
  { toDictStatus := some 0, toDictRoomId := some "888",
    m3u8PullUrl := [("HD1", "u")], flvPullUrl := [] }

/-- Environment in which webcast id 888 resolves to an offline room. -/
def envC2 : Env :=
  { getWebcastId := fun _ => .error "service unavailable",
    getUserInfo := fun _ => .error "service unavailable",
    fetchUserLiveVideos := fun s => if s == "888" then .ok (some lfC2) else .error "not found",
    fetchByRoomId := fun _ => .error "not found",
    mkdir := fun _ => none }

/-- A live filter for room 111 whose payload has no room_id key, so the job
is registered under the webcast id itself. -/
def lfC6 : LiveFilter :=
  { toDictStatus := some 2, toDictRoomId := none,
    m3u8PullUrl := [("SD1", "v")], flvPullUrl := [] }

/-- Environment in which webcast id 111 resolves to a live room. -/
def envC6 : Env :=
  { getWebcastId := fun _ => .error "service unavailable",
    getUserInfo := fun _ => .error "service unavailable",
    fetchUserLiveVideos := fun s => if s == "111" then .ok (some lfC6) else .error "not found",
    fetchByRoomId := fun _ => .error "not found",
    mkdir := fun _ => none }

/-- A live filter for a live room used to reach the mkdir call. -/
def lfC9 : LiveFilter :=
  { toDictStatus := some 2, toDictRoomId := some "321",
    m3u8PullUrl := [("SD2", "w")], flvPullUrl := [] }

/-- Environment in which the room is live but creating the output directory
raises a filesystem error. -/
def envC9 : Env :=
  { getWebcastId := fun _ => .error "service unavailable",
    getUserInfo := fun _ => .error "service unavailable",
    fetchUserLiveVideos := fun s => if s == "321" then .ok (some lfC9) else .error "not found",
    fetchByRoomId := fun _ => .error "not found",
    mkdir := fun _ => some "disk full" }


/-! ### Helper lemmas -/

theorem downloadStream_eq_of_aux {env : Env} {url : String} {op : Option String}
    {st : ServiceState} {r : (String × String) × ServiceState}
    (h : downloadStreamAux env url op st = .ok r) :
    downloadStream env url op st = r := by
  unfold downloadStream
  rw [h]

theorem hasKey_popJob (m : JobMap) (k : String) : hasKey (popJob m k) k = false := by
  simp only [hasKey, popJob, List.any_eq_false]
  intro x hx
  have hne := (List.mem_filter.mp hx).2
  simp only [bne_iff_ne, ne_eq] at hne
  simp [hne]

theorem getVal_mem {m : StrMap} {k v : String} (h : getVal m k = some v) :
    ∃ p ∈ m, p.2 = v := by
  induction m with
  | nil => simp [getVal] at h
  | cons q rest ih =>
    by_cases hq : q.1 == k
    · simp only [getVal, hq, if_pos, Option.some.injEq] at h
      exact ⟨q, by simp, h⟩
    · simp only [getVal, hq, Bool.false_eq_true, if_neg] at h
      obtain ⟨p, hp, hv⟩ := ih h
      exact ⟨p, by simp [hp], hv⟩

theorem populatedVal_none_of_allEmpty {m : StrMap} (h : ∀ p ∈ m, p.2 = "")
    (k : String) : populatedVal m k = none := by
  unfold populatedVal
  cases hg : getVal m k with
  | none => rfl
  | some v =>
    obtain ⟨p, hp, hv⟩ := getVal_mem hg
    have : v = "" := hv ▸ h p hp
    simp [this]

theorem firstNonEmptyValue_none_iff (m : StrMap) :
    firstNonEmptyValue m = none ↔ ∀ p ∈ m, p.2 = "" := by
  induction m with
  | nil => simp [firstNonEmptyValue]
  | cons q rest ih =>
    by_cases hq : q.2 == ""
    · have hq' : q.2 = "" := by simpa using hq
      simp [firstNonEmptyValue, hq, ih, hq']
    · have hq' : q.2 ≠ "" := by simpa using hq
      simp [firstNonEmptyValue, hq, hq']

theorem selectFromPreferred_none_of_allEmpty {m : StrMap} (h : ∀ p ∈ m, p.2 = "") :
    ∀ ks : List String, selectFromPreferred m ks = none := by
  intro ks
  induction ks with
  | nil => rfl
  | cons k rest ih => simp [selectFromPreferred, populatedVal_none_of_allEmpty h k, ih]

theorem selectStreamUrl_none_iff (m : StrMap) :
    selectStreamUrl m = none ↔ ∀ p ∈ m, p.2 = "" := by
  constructor
  · intro h
    unfold selectStreamUrl at h
    cases hs : selectFromPreferred m preferredOrder with
    | none =>
      rw [hs] at h
      exact (firstNonEmptyValue_none_iff m).mp h
    | some v => rw [hs] at h; exact absurd h (by simp)
  · intro h
    unfold selectStreamUrl
    rw [selectFromPreferred_none_of_allEmpty h, (firstNonEmptyValue_none_iff m).mpr h]


theorem orderedInsert_map_of_index (g : Segment → Segment)
    (hidx : ∀ s, (g s).index = s.index) (a : Segment) :
    ∀ l : List Segment,
      List.orderedInsert segLE (g a) (l.map g) = (List.orderedInsert segLE a l).map g := by
  intro l
  induction l with
  | nil => rfl
  | cons b bs ih =>
    have hg : segLE (g a) (g b) ↔ segLE a b := by
      unfold segLE
      rw [hidx a, hidx b]
    simp only [List.map_cons, List.orderedInsert]
    by_cases h : segLE a b
    · rw [if_pos (hg.mpr h), if_pos h, List.map_cons, List.map_cons]
    · rw [if_neg (fun hc => h (hg.mp hc)), if_neg h, List.map_cons, ih]

theorem sortSegments_map_of_index (g : Segment → Segment)
    (hidx : ∀ s, (g s).index = s.index) :
    ∀ l : List Segment, sortSegments (l.map g) = (sortSegments l).map g := by
  intro l
  induction l with
  | nil => rfl
  | cons b bs ih =>
    unfold sortSegments at *
    simp only [List.map_cons, List.insertionSort]
    rw [ih, orderedInsert_map_of_index g hidx]

theorem foldr_content_map (g : Segment → Segment)
    (hcnt : ∀ s, (g s).content = s.content) :
    ∀ l : List Segment,
      (l.map g).foldr (fun s acc => s.content ++ acc) []
        = l.foldr (fun s acc => s.content ++ acc) [] := by
  intro l
  induction l with
  | nil => rfl
  | cons b bs ih => simp only [List.map_cons, List.foldr_cons, hcnt b, ih]

/-- Claim C4 (amended): the selector returns the first populated entry in the
fixed preference order FULL_HD1, HD1, SD1, SD2; when none of those labels is
populated it returns the first nonempty value of the map in insertion order;
it fails exactly when the map has no nonempty value (so a non-empty map whose
values are all empty strings also fails, not only the empty map). -/
theorem C4_selector_preference :
    (∀ (m : StrMap) (v : String), populatedVal m "FULL_HD1" = some v →
       selectStreamUrl m = some v)
  ∧ (∀ (m : StrMap) (v : String), populatedVal m "FULL_HD1" = none →
       populatedVal m "HD1" = some v → selectStreamUrl m = some v)
  ∧ (∀ (m : StrMap) (v : String), populatedVal m "FULL_HD1" = none →
       populatedVal m "HD1" = none → populatedVal m "SD1" = some v →
       selectStreamUrl m = some v)
  ∧ (∀ (m : StrMap) (v : String), populatedVal m "FULL_HD1" = none →
       populatedVal m "HD1" = none → populatedVal m "SD1" = none →
       populatedVal m "SD2" = some v → selectStreamUrl m = some v)
  ∧ (∀ m : StrMap, populatedVal m "FULL_HD1" = none → populatedVal m "HD1" = none →
       populatedVal m "SD1" = none → populatedVal m "SD2" = none →
       selectStreamUrl m = firstNonEmptyValue m)
  ∧ (∀ m : StrMap, selectStreamUrl m = none ↔ ∀ p ∈ m, p.2 = "") := by
  refine ⟨?_, ?_, ?_, ?_, ?_, selectStreamUrl_none_iff⟩ <;>
    intros <;> simp_all [selectStreamUrl, selectFromPreferred, preferredOrder]

/-- Witness for C4: the map with HD1 and SD1 populated selects the HD1 value. -/
theorem C4_witness : selectStreamUrl [("HD1", "u1"), ("SD1", "u2")] = some "u1" :=
  C4_selector_preference.2.1 [("HD1", "u1"), ("SD1", "u2")] "u1" (by decide) (by decide)

/-- Counterexample to C4 as stated: a non-empty variant map whose only value
is the empty string makes the selector fail, so the empty map is not the only
failure case. -/
theorem C4_counterexample :
    ([("HD1", "")] : StrMap) ≠ [] ∧ selectStreamUrl [("HD1", "")] = none := by
  exact ⟨by decide, by decide⟩

/-- Claim C7: get_download_status raises the not-found error exactly when the
operation id is absent from the registry and no output artifact exists on
disk; an existing artifact is returned as a path, and a registered id reports
the download as in progress. -/
theorem C7_status_not_found :
    ∀ (fs : String → Bool) (st : ServiceState) (oid : String),
    ((∃ e, getDownloadStatus fs st oid = .error e)
       ↔ fs (outputFileFor oid) = false ∧ hasKey st.downloadJobs oid = false)
  ∧ (fs (outputFileFor oid) = true →
       getDownloadStatus fs st oid = .ok (outputFileFor oid))
  ∧ (fs (outputFileFor oid) = false → hasKey st.downloadJobs oid = true →
       getDownloadStatus fs st oid = .ok "Download in progress.") := by
  intro fs st oid
  unfold getDownloadStatus
  by_cases h1 : fs (outputFileFor oid) = true <;>
    by_cases h2 : hasKey st.downloadJobs oid = true <;>
      simp_all

/-- Witness for C7: with the artifact on disk the path is returned. -/
theorem C7_witness :
    getDownloadStatus (fun _ => true) st0 "77" = .ok (outputFileFor "77") :=
  (C7_status_not_found (fun _ => true) st0 "77").2.1 rfl

/-- Claim C6 (amended): after a job is accepted, a background failure is never
thrown into any caller path (the runner returns normally and leaves the state
exactly as a successful run would) and it deregisters the job, but the error
is not captured into any queryable terminal state: a later status poll with no
artifact on disk raises the not-found error instead of reporting the failure. -/
theorem C6_background_errors :
    ∀ (msg : String) (st : ServiceState) (jobId : String),
    runStreamDownload (.error msg) st jobId = runStreamDownload (.ok ()) st jobId
  ∧ hasKey (runStreamDownload (.error msg) st jobId).downloadJobs jobId = false
  ∧ ∀ fs : String → Bool, (∀ p, fs p = false) →
      getDownloadStatus fs (runStreamDownload (.error msg) st jobId) jobId
        = .error "Operation not found or status unknown." := by
  intro msg st jobId
  refine ⟨rfl, hasKey_popJob st.downloadJobs jobId, ?_⟩
  intro fs hfs
  unfold getDownloadStatus runStreamDownload
  simp [hfs, hasKey_popJob]

/-- Witness for C6: a failed background run leaves a state in which the poll
raises the not-found error. -/
theorem C6_witness :
    getDownloadStatus (fun _ => false) (runStreamDownload (.error "boom") st0 "1") "1"
      = .error "Operation not found or status unknown." :=
  (C6_background_errors "boom" st0 "1").2.2 (fun _ => false) (fun _ => rfl)

/-- Counterexample to C6 as stated: a job for webcast id 111 is accepted
(status pending), the background run fails, and polling the job id afterwards
raises the not-found error: the failure was not captured into any queryable
terminal state. -/
theorem C6_counterexample :
    (downloadStream envC6 "111" none st0).1.1 = "pending"
  ∧ getDownloadStatus (fun _ => false)
      (runStreamDownload (.error "recorder crashed")
        (downloadStream envC6 "111" none st0).2 "111") "111"
      = .error "Operation not found or status unknown." := by
  exact ⟨by decide, by rfl⟩

/-- Claim C8 (spec-modelled): the segment merger orders segments by their
embedded sequence index: the sorted list is index-sorted and a permutation of
the input, the merged output is unchanged by arbitrary modification-time
changes, and segments with indices 2, 0, 1 in that filesystem order merge
into content ordered 0, 1, 2. -/
theorem C8_merger_index_order :
    (∀ segs : List Segment,
       List.Sorted segLE (sortSegments segs) ∧ List.Perm (sortSegments segs) segs)
  ∧ (∀ g : Segment → Segment, (∀ s, (g s).index = s.index) →
       (∀ s, (g s).content = s.content) →
       ∀ segs : List Segment, mergeSegments (segs.map g) = mergeSegments segs)
  ∧ mergeSegments [⟨2, [102], 10⟩, ⟨0, [100], 30⟩, ⟨1, [101], 20⟩] = [100, 101, 102] := by
  refine ⟨?_, ?_, by decide⟩
  · intro segs
    exact ⟨List.sorted_insertionSort segLE segs, List.perm_insertionSort segLE segs⟩
  · intro g hidx hcnt segs
    unfold mergeSegments
    rw [sortSegments_map_of_index g hidx segs, foldr_content_map g hcnt]

/-- Witness for C8: changing only the modification time of a segment does not
change the merged output. -/
theorem C8_witness :
    mergeSegments (([⟨0, [7], 5⟩] : List Segment).map (fun s => ⟨s.index, s.content, 0⟩))
      = mergeSegments [⟨0, [7], 5⟩] :=
  C8_merger_index_order.2.1 (fun s => ⟨s.index, s.content, 0⟩)
    (fun _ => rfl) (fun _ => rfl) [⟨0, [7], 5⟩]


theorem downloadStream_eq_of_aux_error {env : Env} {url : String} {op : Option String}
    {st : ServiceState} {e : String}
    (h : downloadStreamAux env url op st = .error e) :
    downloadStream env url op st = (("error", e), st) := by
  unfold downloadStream
  rw [h]

theorem aux_sound (env : Env) (url : String) (op : Option String) (st : ServiceState)
    (r : String × String) (st' : ServiceState)
    (h : downloadStreamAux env url op st = .ok (r, st')) :
    (r.1 = "pending" ∨ r.1 = "error") ∧ (r.1 ≠ "pending" → st' = st) := by
  unfold downloadStreamAux at h
  iterate 9 (all_goals (try split at h))
  all_goals (try (simp at h))
  all_goals (obtain ⟨h1, h2⟩ := h; subst h1; subst h2; simp)


/-- Claim C9: download_stream never raises to its caller: for every input and
every behavior of the upstream dependencies it returns a status pair whose
status is pending or error, and an exception escaping the body (modelled by an
error result of the body) is converted into an error pair carrying its
message, with the state unchanged. -/
theorem C9_no_exception_to_caller :
    ∀ (env : Env) (url : String) (op : Option String) (st : ServiceState),
    ((downloadStream env url op st).1.1 = "pending"
       ∨ (downloadStream env url op st).1.1 = "error")
  ∧ ∀ e, downloadStreamAux env url op st = .error e →
      downloadStream env url op st = (("error", e), st) := by
  intro env url op st
  constructor
  · cases haux : downloadStreamAux env url op st with
    | ok v =>
      obtain ⟨r, st'⟩ := v
      rw [downloadStream_eq_of_aux haux]
      exact (aux_sound env url op st r st' haux).1
    | error e =>
      rw [downloadStream_eq_of_aux_error haux]
      exact Or.inr rfl
  · intro e he
    exact downloadStream_eq_of_aux_error he

/-- Witness for C9: a filesystem failure while creating the output directory
is caught and surfaced as an error pair. -/
theorem C9_witness :
    downloadStream envC9 "321" none st0 = (("error", "disk full"), st0) :=
  (C9_no_exception_to_caller envC9 "321" none st0).2 "disk full" (by rfl)

/-- Claim C10: a rejected start leaves the service state unchanged: whenever
download_stream returns with status error, the job registry and the set of
created background tasks are exactly as before the call. -/
theorem C10_rejected_start_no_side_effects :
    ∀ (env : Env) (url : String) (op : Option String) (st : ServiceState),
    (downloadStream env url op st).1.1 = "error" →
    (downloadStream env url op st).2 = st := by
  intro env url op st h
  cases haux : downloadStreamAux env url op st with
  | ok v =>
    obtain ⟨r, st'⟩ := v
    rw [downloadStream_eq_of_aux haux] at h ⊢
    refine (aux_sound env url op st r st' haux).2 ?_
    intro hp
    rw [hp] at h
    exact absurd h (by decide)
  | error e =>
    rw [downloadStream_eq_of_aux_error haux]

/-- Witness for C10: a call rejected for an empty input leaves the initial
state unchanged. -/
theorem C10_witness : (downloadStream envA "" none st0).2 = st0 :=
  C10_rejected_start_no_side_effects envA "" none st0 (by decide)

/-- Claim C1 (amended): the duplicate-download check is performed on the
resolved webcast id, not on the room id: a call whose identifier resolves to a
webcast id that is already a key of the job registry returns the
already-downloading error synchronously with the state unchanged.  Since
completed registrations are keyed by the room id taken from the fetched room
info, the at-most-one-job-per-room guarantee holds only when the webcast id
equals that room id. -/
theorem C1_duplicate_check_on_webcast_id :
    ∀ (env : Env) (url : String) (op : Option String) (st : ServiceState)
      (wcId : String) (pri : Option ProfileRoomInfo),
    resolveWebcastId env url = .resolved wcId pri →
    hasKey st.downloadJobs wcId = true →
    downloadStream env url op st = (("error", "Already downloading this stream"), st) := by
  intro env url op st wcId pri hres hdup
  apply downloadStream_eq_of_aux
  unfold downloadStreamAux
  rw [hres]
  simp [hdup]

/-- Witness for C1: a second start for the already-registered webcast id 42 is
rejected synchronously. -/
theorem C1_witness :
    downloadStream envA "42" none stW = (("error", "Already downloading this stream"), stW) :=
  C1_duplicate_check_on_webcast_id envA "42" none stW "42" none (by decide) (by decide)

/-- Counterexample to C1 as stated: webcast id 555 resolves to room id 999;
after a first accepted start the registry holds room 999, yet a second call
with the same identifier is accepted as pending and a second background task
for room 999 is created. -/
theorem C1_counterexample :
    hasKey (downloadStream envC1 "555" none st0).2.downloadJobs "999" = true
  ∧ (downloadStream envC1 "555" none (downloadStream envC1 "555" none st0).2).1.1 = "pending"
  ∧ (downloadStream envC1 "555" none (downloadStream envC1 "555" none st0).2).2.tasksCreated
      = [("999", 0), ("999", 1)] := by
  exact ⟨by decide, by decide, by decide⟩

/-- Claim C2: status code 2 is the sole live signal: when the room info used
by download_stream carries any status other than 2 the call returns the
not-streaming error synchronously with the state unchanged, and the
profile-lookup path fails synchronously when the profile is not living or has
no room id. -/
theorem C2_status_two_gate :
    (∀ (env : Env) (url : String) (op : Option String) (st : ServiceState)
       (wcId : String) (pri : Option ProfileRoomInfo) (lf? : Option LiveFilter),
       resolveWebcastId env url = .resolved wcId pri →
       hasKey st.downloadJobs wcId = false →
       loadLiveFilter env wcId = .ok lf? →
       (lf?.isSome || pri.isSome) = true →
       (roomInfoFrom lf? pri).status ≠ some 2 →
       downloadStream env url op st
         = (("error", notStreamingMsg ((roomInfoFrom lf? pri).status)), st))
  ∧ (∀ (env : Env) (userId : String) (profile : Profile),
       userId ≠ "" →
       env.getUserInfo userId = .ok profile →
       (!profile.isLiving || strFalsy profile.roomId) = true →
       profileLookup env userId = .failure "User is not currently livestreaming") := by
  constructor
  · intro env url op st wcId pri lf? hres hdup hload hsome hstat
    apply downloadStream_eq_of_aux
    unfold downloadStreamAux
    rw [hres]
    have hno : (lf?.isNone && pri.isNone) = false := by
      cases lf? <;> cases pri <;> simp_all
    simp [hdup, hload, hno, hstat]
  · intro env userId profile hid hprof hcond
    unfold profileLookup
    rw [if_neg (by simp [hid]), hprof]
    simp [hcond]

/-- Witness for C2: a room reported with status code 0 is rejected as not
currently streaming. -/
theorem C2_witness :
    downloadStream envC2 "888" none st0
      = (("error", notStreamingMsg ((roomInfoFrom (some lfC2) none).status)), st0) :=
  C2_status_two_gate.1 envC2 "888" none st0 "888" none (some lfC2)
    (by decide) (by rfl) (by rfl) (by rfl) (by decide)


theorem resolve_digits_direct :
    ∀ (env : Env) (url : String), pyIsDigit (pyStrip url) = true →
      resolveWebcastId env url = .resolved (pyStrip url) none := by
  intro env url h
  have hne : pyStrip url ≠ "" := by
    intro he
    rw [he] at h
    exact absurd h (by decide)
  unfold resolveWebcastId
  simp [h, hne, strFalsy]

theorem resolve_url_path :
    ∀ (env : Env) (url : String), pyStrip url ≠ "" → pyIsDigit (pyStrip url) = false →
      pyIsDigit (lastSegmentOf url) = true →
      resolveWebcastId env url = .resolved (lastSegmentOf url) none := by
  intro env url h0 h1 h2
  have hseg : lastSegmentOf url ≠ "" := by
    intro he
    rw [he] at h2
    exact absurd h2 (by decide)
  unfold resolveWebcastId
  simp [h0, h1, h2, hseg, strFalsy]

theorem resolve_via_id_service :
    ∀ (env : Env) (url w : String), pyStrip url ≠ "" →
      pyIsDigit (pyStrip url) = false → pyIsDigit (lastSegmentOf url) = false →
      env.getWebcastId (pyStrip url) = .ok w → w ≠ "" →
      resolveWebcastId env url = .resolved w none := by
  intro env url w h0 h1 h2 h3 h4
  unfold resolveWebcastId
  simp [h0, h1, h2, h3, h4, strFalsy]

theorem resolve_profile_branch :
    ∀ (env : Env) (url e : String), pyStrip url ≠ "" →
      pyIsDigit (pyStrip url) = false → pyIsDigit (lastSegmentOf url) = false →
      env.getWebcastId (pyStrip url) = .error e →
      pyContains (hostOf url) "douyin.com" = true →
      pyStartsWith (parsedOf url).path "/user/" = true →
      resolveWebcastId env url = profileLookup env (userIdOf url) := by
  intro env url e h0 h1 h2 h3 h4 h5
  unfold resolveWebcastId
  simp [h0, h1, h2, h3, h4, h5]

/-- Claim C3: the resolver tries strategies cheapest-first: a trimmed
all-digits input is the id directly, independent of the environment (no
network call); otherwise an all-digits last URL path segment is used, also
environment-independent, so the live.example.com/778899 URL resolves to
778899; only after both fail is the external webcast-id service consulted,
whose nonempty answer is used without touching the profile service; and only
when it fails is the profile branch taken. -/
theorem C3_resolver_order :
    (∀ (env : Env) (url : String), pyIsDigit (pyStrip url) = true →
       resolveWebcastId env url = .resolved (pyStrip url) none)
  ∧ (∀ (env : Env) (url : String), pyStrip url ≠ "" → pyIsDigit (pyStrip url) = false →
       pyIsDigit (lastSegmentOf url) = true →
       resolveWebcastId env url = .resolved (lastSegmentOf url) none)
  ∧ (∀ env : Env, resolveWebcastId env "https://live.example.com/778899"
       = .resolved "778899" none)
  ∧ (∀ (env : Env) (url w : String), pyStrip url ≠ "" →
       pyIsDigit (pyStrip url) = false → pyIsDigit (lastSegmentOf url) = false →
       env.getWebcastId (pyStrip url) = .ok w → w ≠ "" →
       resolveWebcastId env url = .resolved w none)
  ∧ (∀ (env : Env) (url e : String), pyStrip url ≠ "" →
       pyIsDigit (pyStrip url) = false → pyIsDigit (lastSegmentOf url) = false →
       env.getWebcastId (pyStrip url) = .error e →
       pyContains (hostOf url) "douyin.com" = true →
       pyStartsWith (parsedOf url).path "/user/" = true →
       resolveWebcastId env url = profileLookup env (userIdOf url)) := by
  refine ⟨resolve_digits_direct, resolve_url_path, ?_, resolve_via_id_service, resolve_profile_branch⟩
  intro env
  have h := resolve_url_path env "https://live.example.com/778899"
    (by decide) (by decide) (by decide)
  rw [show lastSegmentOf "https://live.example.com/778899" = "778899" from by decide] at h
  exact h

/-- Witness for C3: a padded numeric input resolves to its trimmed self with
no dependence on the failing environment. -/
theorem C3_witness : resolveWebcastId envA " 4242 " = .resolved (pyStrip " 4242 ") none :=
  C3_resolver_order.1 envA " 4242 " (by decide)

end Dyvine
